import Mathlib

/-!
Shallow embedding of the budgetools compounding projection engine
(`budgetools/budget.py` and `budgetools/forecast.py`).

Conventions of the embedding:
* Python numbers are modelled exactly: scalar parameters as `ℚ`, forecast
  sequences as `List ℝ` (the annual-to-monthly rate conversion takes a real
  twelfth root, so the sequence layer lives in `ℝ`).
* A Python property setter mutates the object in place or raises `ValueError`
  before any assignment happens.  A setter is therefore embedded as a function
  `state → value → Option String × state`: the first component is the raised
  message (if any) and the second component is the state after the call, which
  is the unchanged input state whenever a message was raised.
* `numpy` arrays are lists; `np.cumsum`/`np.cumprod` are partial sums and
  partial products of prefixes; `np.round(x, 2)` rounds half to even at two
  decimal places.
-/

/-- `BaseBudget` (budget.py): salary, tax rate and the four monthly expense
categories.  The constructor initialises every expense category to 0. -/
structure BaseBudget where
  salary : ℚ
  tax_rate : ℚ
  rent : ℚ
  food_daily : ℚ
  entertainment : ℚ
  emergency_expenses : ℚ

namespace BaseBudget

/-- `BaseBudget.__init__(salary, tax_rate)`: stores salary and tax rate and
zeroes the expense fields; it contains no validation and never raises. -/
def init (salary tax_rate : ℚ) : Option String × BaseBudget :=
  (none,
    { salary := salary, tax_rate := tax_rate, rent := 0, food_daily := 0,
      entertainment := 0, emergency_expenses := 0 })

/-- `monthly_salary_after_tax`: `salary * (1 - tax_rate) / 12`. -/
def monthly_salary_after_tax (b : BaseBudget) : ℚ :=
  let salary_disposable := b.salary * (1 - b.tax_rate)
  let monthly_salary_disposable := salary_disposable / 12
  monthly_salary_disposable

/-- `monthly_expenses`: `rent + food_daily * 30 + entertainment +
emergency_expenses` (flat 30-day month). -/
def monthly_expenses (b : BaseBudget) : ℚ :=
  b.rent + b.food_daily * 30 + b.entertainment + b.emergency_expenses

/-- The `rent` property setter: raises on a negative value, stores otherwise. -/
def set_rent (b : BaseBudget) (rent_value : ℚ) : Option String × BaseBudget :=
  if rent_value < 0 then (some "Your rent should be 0 or above", b)
  else (none, { b with rent := rent_value })

/-- The `food_daily` property setter. -/
def set_food_daily (b : BaseBudget) (food_value : ℚ) : Option String × BaseBudget :=
  if food_value < 0 then (some "Your food expenses should be 0 or above", b)
  else (none, { b with food_daily := food_value })

/-- The `entertainment` property setter. -/
def set_entertainment (b : BaseBudget) (entertainment_value : ℚ) :
    Option String × BaseBudget :=
  if entertainment_value < 0 then
    (some "Sorry your entertainment expenses should be 0 or above", b)
  else (none, { b with entertainment := entertainment_value })

/-- The `emergency_expenses` property setter. -/
def set_emergency_expenses (b : BaseBudget) (emergency_value : ℚ) :
    Option String × BaseBudget :=
  if emergency_value < 0 then
    (some "Sorry your emergency expenses should be 0 or above", b)
  else (none, { b with emergency_expenses := emergency_value })

end BaseBudget

/-- Round half to even, the rounding rule of `np.round` on an exact real. -/
noncomputable def roundHalfEven (x : ℝ) : ℤ :=
  if Int.fract x = 1 / 2 then (if Even ⌊x⌋ then ⌊x⌋ else ⌊x⌋ + 1) else round x

/-- `np.round(x, 2)`: round to two decimal places, half to even. -/
noncomputable def round2 (x : ℝ) : ℝ :=
  (roundHalfEven (x * 100) : ℝ) / 100

/-- `np.cumsum`: element `i` is the sum of the first `i + 1` elements. -/
noncomputable def cumsum (l : List ℝ) : List ℝ :=
  (List.range l.length).map fun i => (l.take (i + 1)).sum

/-- `np.cumprod`: element `i` is the product of the first `i + 1` elements. -/
noncomputable def cumprod (l : List ℝ) : List ℝ :=
  (List.range l.length).map fun i => (l.take (i + 1)).prod

/-- The annual-to-monthly rate conversion used by every forecast method:
`(1 + rate) ** (1 / MONTHS_PER_YEAR) - 1` with `MONTHS_PER_YEAR = 12`. -/
noncomputable def monthlyRate (rate : ℚ) : ℝ :=
  (1 + (rate : ℝ)) ^ ((1 : ℝ) / 12) - 1

/-- `SalaryExpensesForecasting` (forecast.py): a `BaseBudget` extended with a
horizon in years and the two annual growth rates. -/
structure SalaryExpensesForecasting extends BaseBudget where
  years : ℤ
  annual_salary_growth : ℚ
  annual_inflation : ℚ

namespace SalaryExpensesForecasting

/-- `SalaryExpensesForecasting.__init__(years, salary, tax_rate)`: chains to
`BaseBudget.__init__` and zeroes both growth rates; no validation, never
raises. -/
def init (years : ℤ) (salary tax_rate : ℚ) :
    Option String × SalaryExpensesForecasting :=
  (none,
    { (BaseBudget.init salary tax_rate).2 with
      years := years, annual_salary_growth := 0, annual_inflation := 0 })

/-- The `annual_salary_growth` property setter. -/
def set_annual_salary_growth (f : SalaryExpensesForecasting)
    (salary_growth_value : ℚ) : Option String × SalaryExpensesForecasting :=
  if salary_growth_value < 0 then
    (some "The salary growth rate should be 0 or between 0-1", f)
  else (none, { f with annual_salary_growth := salary_growth_value })

/-- The `annual_inflation` property setter. -/
def set_annual_inflation (f : SalaryExpensesForecasting)
    (inflation_value : ℚ) : Option String × SalaryExpensesForecasting :=
  if inflation_value < 0 then
    (some "The inflation rate should be 0 or between 0-1", f)
  else (none, { f with annual_inflation := inflation_value })

/-- `forecast_months = MONTHS_PER_YEAR * self.years` with
`MONTHS_PER_YEAR = 12`, as a sequence length (non-positive horizons give an
empty sequence). -/
def forecast_months (f : SalaryExpensesForecasting) : ℕ :=
  (12 * f.years).toNat

/-- `monthly_salary_forecast`: the cumulative product of
`1 + monthly_salary_growth` repeated `forecast_months` times, scaled by
`monthly_salary_after_tax()` and rounded elementwise to two decimals. -/
noncomputable def monthly_salary_forecast (f : SalaryExpensesForecasting) :
    List ℝ :=
  let monthly_salary_growth := monthlyRate f.annual_salary_growth
  let cumulative_salary_growth_forecast :=
    cumprod (List.replicate f.forecast_months (1 + monthly_salary_growth))
  cumulative_salary_growth_forecast.map fun c =>
    round2 (c * (f.toBaseBudget.monthly_salary_after_tax : ℝ))

/-- `monthly_expenses_forecast`: the same structure driven by the inflation
rate and `monthly_expenses()` as the base. -/
noncomputable def monthly_expenses_forecast (f : SalaryExpensesForecasting) :
    List ℝ :=
  let monthly_inflation := monthlyRate f.annual_inflation
  let cumulative_inflation_forecast :=
    cumprod (List.replicate f.forecast_months (1 + monthly_inflation))
  cumulative_inflation_forecast.map fun c =>
    round2 (c * (f.toBaseBudget.monthly_expenses : ℝ))

end SalaryExpensesForecasting

/-- `NetWorthSimulation` (forecast.py): a `SalaryExpensesForecasting` extended
with the investment allocation percentage and the annual investment return. -/
structure NetWorthSimulation extends SalaryExpensesForecasting where
  monthly_investment_pct : ℚ
  annual_investment_return : ℚ

namespace NetWorthSimulation

/-- `NetWorthSimulation.__init__(years, salary, tax_rate,
monthly_investment_pct)`: chains to the parent constructor, stores
`monthly_investment_pct` as a plain attribute (no property setter is invoked)
and zeroes `annual_investment_return`; no argument is validated and the
constructor never raises. -/
def init (years : ℤ) (salary tax_rate monthly_investment_pct : ℚ) :
    Option String × NetWorthSimulation :=
  (none,
    { (SalaryExpensesForecasting.init years salary tax_rate).2 with
      monthly_investment_pct := monthly_investment_pct,
      annual_investment_return := 0 })

/-- The `annual_investment_return` property setter.  The raised message is the
one literally present in the source. -/
def set_annual_investment_return (s : NetWorthSimulation)
    (investment_return_value : ℚ) : Option String × NetWorthSimulation :=
  if investment_return_value < 0 then
    (some "The inflation rate should be 0 or between 0-1", s)
  else (none, { s with annual_investment_return := investment_return_value })

/-- `savings_forecast`: the elementwise difference of the salary and expenses
forecasts, cumulated.  The first returned component models
`cumulative_savings[-1]`, which in the source raises `IndexError` on an empty
array; the embedding returns `none` in that case. -/
noncomputable def savings_forecast (s : NetWorthSimulation) :
    Option ℝ × List ℝ :=
  let savings_forecast := List.zipWith (· - ·)
    s.toSalaryExpensesForecasting.monthly_salary_forecast
    s.toSalaryExpensesForecasting.monthly_expenses_forecast
  let cumulative_savings := cumsum savings_forecast
  let final_net_worth := cumulative_savings.getLast?
  (final_net_worth, cumulative_savings)

/-- `monthly_income_investment`: the net-savings stream split into the
investment deposit stream (`* monthly_investment_pct`) and the post-investment
savings stream (`* (1 - monthly_investment_pct)`), the latter cumulated. -/
noncomputable def monthly_income_investment (s : NetWorthSimulation) :
    List ℝ × List ℝ × List ℝ :=
  let investment_deposit_forecast :=
    (List.zipWith (· - ·) s.toSalaryExpensesForecasting.monthly_salary_forecast
      s.toSalaryExpensesForecasting.monthly_expenses_forecast).map fun x =>
      x * (s.monthly_investment_pct : ℝ)
  let savings_forecast_new :=
    (List.zipWith (· - ·) s.toSalaryExpensesForecasting.monthly_salary_forecast
      s.toSalaryExpensesForecasting.monthly_expenses_forecast).map fun x =>
      x * (1 - (s.monthly_investment_pct : ℝ))
  let cumulative_savings_new := cumsum savings_forecast_new
  (investment_deposit_forecast, savings_forecast_new, cumulative_savings_new)

end NetWorthSimulation

/-- The body of the `for i in range(forecast_months)` loop of
`net_worth_savings_investments`: the two `np.zeros` arrays are modelled as
functions `ℕ → ℝ` (initially constantly `0`), and the two indexed
assignments as pointwise updates. -/
noncomputable def nwStep (investment_rate_monthly : ℝ)
    (investment_deposit_forecast cumulative_savings_new : List ℝ)
    (st : (ℕ → ℝ) × (ℕ → ℝ)) (i : ℕ) : (ℕ → ℝ) × (ℕ → ℝ) :=
  let previous_investment : ℝ := if i = 0 then 0 else st.1 (i - 1)
  let previous_investment_growth :=
    previous_investment * (1 + investment_rate_monthly)
  let investment_portfolio := Function.update st.1 i
    (previous_investment_growth + investment_deposit_forecast.getD i 0)
  let net_worth := Function.update st.2 i
    (cumulative_savings_new.getD i 0 + investment_portfolio i)
  (investment_portfolio, net_worth)

/-- The loop of `net_worth_savings_investments` run over the first `k`
indices, as a fold of `nwStep` over `range k` from the all-zero state. -/
noncomputable def nwFold (investment_rate_monthly : ℝ)
    (investment_deposit_forecast cumulative_savings_new : List ℝ) (k : ℕ) :
    (ℕ → ℝ) × (ℕ → ℝ) :=
  (List.range k).foldl
    (nwStep investment_rate_monthly investment_deposit_forecast
      cumulative_savings_new)
    (fun _ => 0, fun _ => 0)

/-- The closed form of the portfolio recurrence: `portfolio[0] = 0 * (1 + m) +
deposit[0]` and `portfolio[i+1] = portfolio[i] * (1 + m) + deposit[i+1]`,
i.e. the recurrence of the source loop with `portfolio[-1]` taken as `0`. -/
noncomputable def portfolioSpec (m : ℝ) (dep : List ℝ) : ℕ → ℝ
  | 0 => 0 * (1 + m) + dep.getD 0 0
  | i + 1 => portfolioSpec m dep i * (1 + m) + dep.getD (i + 1) 0

namespace NetWorthSimulation

/-- `net_worth_savings_investments`: converts the annual investment return to
a monthly rate, runs the sequential portfolio loop over
`range(forecast_months)` and returns `(cumulative_savings_new,
investment_portfolio, net_worth)` with the two arrays read back as lists. -/
noncomputable def net_worth_savings_investments (s : NetWorthSimulation) :
    List ℝ × List ℝ × List ℝ :=
  let forecast_months := s.toSalaryExpensesForecasting.forecast_months
  let investment_rate_monthly := monthlyRate s.annual_investment_return
  let t := s.monthly_income_investment
  let st := nwFold investment_rate_monthly t.1 t.2.2 forecast_months
  (t.2.2, (List.range forecast_months).map st.1,
    (List.range forecast_months).map st.2)

end NetWorthSimulation

/-- A concrete `BaseBudget` used to instantiate general results. -/
def b0 : BaseBudget := (BaseBudget.init 60000 (3/10)).2

/-- A concrete forecaster over one year. -/
def f0 : SalaryExpensesForecasting :=
  (SalaryExpensesForecasting.init 1 60000 (3/10)).2

/-- A concrete simulator with a zero investment allocation. -/
def s0 : NetWorthSimulation := (NetWorthSimulation.init 1 60000 (3/10) 0).2

/-- A concrete simulator with a 30% investment allocation. -/
def s1 : NetWorthSimulation :=
  (NetWorthSimulation.init 1 60000 (3/10) (3/10)).2

theorem cumsum_length (l : List ℝ) : (cumsum l).length = l.length := by
  simp [cumsum]

theorem cumsum_getD (l : List ℝ) (i : ℕ) (h : i < l.length) :
    (cumsum l).getD i 0 = (l.take (i + 1)).sum := by
  rw [List.getD_eq_getElem _ _ (by simpa [cumsum_length] using h)]
  simp [cumsum]

theorem cumprod_length (l : List ℝ) : (cumprod l).length = l.length := by
  simp [cumprod]

theorem cumprod_replicate_one (n : ℕ) :
    cumprod (List.replicate n (1 : ℝ)) = List.replicate n 1 := by
  apply List.ext_getElem
  · simp [cumprod]
  · intro i h1 h2
    simp [cumprod, List.take_replicate, List.prod_replicate]

theorem sum_map_mul_right (l : List ℝ) (c : ℝ) :
    (l.map fun x => x * c).sum = l.sum * c := by
  induction l with
  | nil => simp
  | cons a t ih => simp [ih, add_mul]

theorem map_mul_one (l : List ℝ) : (l.map fun x => x * (1 : ℝ)) = l := by
  simp

theorem getD_range_map (f : ℕ → ℝ) (n i : ℕ) (h : i < n) :
    ((List.range n).map f).getD i 0 = f i := by
  rw [List.getD_eq_getElem _ _ (by simpa using h)]
  simp

theorem nwFold_succ (m : ℝ) (dep cum : List ℝ) (k : ℕ) :
    nwFold m dep cum (k + 1) = nwStep m dep cum (nwFold m dep cum k) k := by
  unfold nwFold
  rw [List.range_succ, List.foldl_append, List.foldl_cons, List.foldl_nil]

theorem nwFold_apply (m : ℝ) (dep cum : List ℝ) (k : ℕ) :
    (∀ j, k ≤ j → (nwFold m dep cum k).1 j = 0) ∧
      ∀ j, j < k →
        (nwFold m dep cum k).1 j = portfolioSpec m dep j ∧
          (nwFold m dep cum k).2 j = cum.getD j 0 + portfolioSpec m dep j := by
  induction k with
  | zero =>
    refine ⟨fun j _ => rfl, fun j h => absurd h (Nat.not_lt_zero j)⟩
  | succ k ih =>
    rw [nwFold_succ]
    have hv : (if k = 0 then (0 : ℝ) else (nwFold m dep cum k).1 (k - 1))
        * (1 + m) + dep.getD k 0 = portfolioSpec m dep k := by
      cases k with
      | zero => simp [portfolioSpec]
      | succ i =>
        have hprev := (ih.2 i (Nat.lt_succ_self i)).1
        simp [portfolioSpec, hprev]
    constructor
    · intro j hj
      have hjk : j ≠ k := by omega
      show Function.update (nwFold m dep cum k).1 k _ j = 0
      rw [Function.update_noteq hjk]
      exact ih.1 j (by omega)
    · intro j hj
      rcases Nat.lt_succ_iff_lt_or_eq.mp hj with h | h
      · have hjk : j ≠ k := by omega
        refine ⟨?_, ?_⟩
        · show Function.update (nwFold m dep cum k).1 k _ j = _
          rw [Function.update_noteq hjk]
          exact (ih.2 j h).1
        · show Function.update (nwFold m dep cum k).2 k _ j = _
          rw [Function.update_noteq hjk]
          exact (ih.2 j h).2
      · subst h
        refine ⟨?_, ?_⟩
        · show Function.update (nwFold m dep cum j).1 j _ j = _
          rw [Function.update_same]
          exact hv
        · show Function.update (nwFold m dep cum j).2 j _ j = _
          rw [Function.update_same, Function.update_same, hv]

theorem getD_map_mul (l : List ℝ) (c : ℝ) (i : ℕ) (h : i < l.length) :
    (l.map fun x => x * c).getD i 0 = l.getD i 0 * c := by
  rw [List.getD_eq_getElem _ _ (by simpa using h), List.getD_eq_getElem _ _ h,
    List.getElem_map]

theorem getD_zipWith_sub (a b : List ℝ) (i : ℕ) (ha : i < a.length)
    (hb : i < b.length) :
    (List.zipWith (· - ·) a b).getD i 0 = a.getD i 0 - b.getD i 0 := by
  rw [List.getD_eq_getElem _ _ (by rw [List.length_zipWith]; omega),
    List.getD_eq_getElem _ _ ha, List.getD_eq_getElem _ _ hb,
    List.getElem_zipWith]

theorem getD_map_mul_zero (l : List ℝ) (j : ℕ) :
    (l.map fun x => x * (0 : ℝ)).getD j 0 = 0 := by
  induction l generalizing j with
  | nil => simp
  | cons a t ih =>
    cases j with
    | zero => simp
    | succ j2 =>
      rw [List.map_cons, List.getD_cons_succ]
      exact ih j2

theorem portfolioSpec_eq_zero (m : ℝ) (dep : List ℝ)
    (h : ∀ j, dep.getD j 0 = 0) : ∀ i, portfolioSpec m dep i = 0 := by
  intro i
  induction i with
  | zero =>
    show 0 * (1 + m) + dep.getD 0 0 = 0
    rw [h 0]
    ring
  | succ j ih =>
    show portfolioSpec m dep j * (1 + m) + dep.getD (j + 1) 0 = 0
    rw [ih, h (j + 1)]
    ring

theorem monthly_salary_forecast_length (f : SalaryExpensesForecasting) :
    f.monthly_salary_forecast.length = f.forecast_months := by
  simp [SalaryExpensesForecasting.monthly_salary_forecast, cumprod]

theorem monthly_expenses_forecast_length (f : SalaryExpensesForecasting) :
    f.monthly_expenses_forecast.length = f.forecast_months := by
  simp [SalaryExpensesForecasting.monthly_expenses_forecast, cumprod]

theorem net_savings_length (s : NetWorthSimulation) :
    (List.zipWith (· - ·)
        s.toSalaryExpensesForecasting.monthly_salary_forecast
        s.toSalaryExpensesForecasting.monthly_expenses_forecast).length =
      s.toSalaryExpensesForecasting.forecast_months := by
  simp [monthly_salary_forecast_length, monthly_expenses_forecast_length]

theorem monthly_income_investment_def (s : NetWorthSimulation) :
    s.monthly_income_investment =
      ((List.zipWith (· - ·)
          s.toSalaryExpensesForecasting.monthly_salary_forecast
          s.toSalaryExpensesForecasting.monthly_expenses_forecast).map
          (fun x => x * (s.monthly_investment_pct : ℝ)),
        (List.zipWith (· - ·)
          s.toSalaryExpensesForecasting.monthly_salary_forecast
          s.toSalaryExpensesForecasting.monthly_expenses_forecast).map
          (fun x => x * (1 - (s.monthly_investment_pct : ℝ))),
        cumsum ((List.zipWith (· - ·)
          s.toSalaryExpensesForecasting.monthly_salary_forecast
          s.toSalaryExpensesForecasting.monthly_expenses_forecast).map
          (fun x => x * (1 - (s.monthly_investment_pct : ℝ))))) := rfl

theorem savings_forecast_def (s : NetWorthSimulation) :
    s.savings_forecast =
      ((cumsum (List.zipWith (· - ·)
          s.toSalaryExpensesForecasting.monthly_salary_forecast
          s.toSalaryExpensesForecasting.monthly_expenses_forecast)).getLast?,
        cumsum (List.zipWith (· - ·)
          s.toSalaryExpensesForecasting.monthly_salary_forecast
          s.toSalaryExpensesForecasting.monthly_expenses_forecast)) := rfl

theorem net_worth_savings_investments_def (s : NetWorthSimulation) :
    s.net_worth_savings_investments =
      ((s.monthly_income_investment).2.2,
        (List.range s.toSalaryExpensesForecasting.forecast_months).map
          (nwFold (monthlyRate s.annual_investment_return)
            (s.monthly_income_investment).1 (s.monthly_income_investment).2.2
            s.toSalaryExpensesForecasting.forecast_months).1,
        (List.range s.toSalaryExpensesForecasting.forecast_months).map
          (nwFold (monthlyRate s.annual_investment_return)
            (s.monthly_income_investment).1 (s.monthly_income_investment).2.2
            s.toSalaryExpensesForecasting.forecast_months).2) := rfl

theorem portfolio_getD (s : NetWorthSimulation) (i : ℕ)
    (h : i < s.toSalaryExpensesForecasting.forecast_months) :
    (s.net_worth_savings_investments).2.1.getD i 0 =
      portfolioSpec (monthlyRate s.annual_investment_return)
        (s.monthly_income_investment).1 i := by
  rw [net_worth_savings_investments_def, getD_range_map _ _ _ h]
  exact ((nwFold_apply _ _ _ _).2 i h).1

theorem net_worth_getD (s : NetWorthSimulation) (i : ℕ)
    (h : i < s.toSalaryExpensesForecasting.forecast_months) :
    (s.net_worth_savings_investments).2.2.getD i 0 =
      (s.monthly_income_investment).2.2.getD i 0 +
        portfolioSpec (monthlyRate s.annual_investment_return)
          (s.monthly_income_investment).1 i := by
  rw [net_worth_savings_investments_def, getD_range_map _ _ _ h]
  exact ((nwFold_apply _ _ _ _).2 i h).2

/-- Claim C1: for every `NetWorthSimulation` with validated parameters,
`net_worth_savings_investments` computes its portfolio sequence by the
sequential recurrence `portfolio[i] = portfolio[i-1] * (1 + m) +
investmentDeposit[i]` with `portfolio[-1]` taken as `0`, where
`m = (1 + annual_investment_return) ^ (1/12) - 1`, and its net-worth sequence
satisfies `netWorth[i] = cumulativePostInvestmentSavings[i] + portfolio[i]`
for every month index `i < forecast_months`. -/
theorem C1_net_worth_recurrence (s : NetWorthSimulation)
    (_hg : 0 ≤ s.annual_salary_growth) (_hinf : 0 ≤ s.annual_inflation)
    (_hr : 0 ≤ s.annual_investment_return)
    (_hp0 : 0 ≤ s.monthly_investment_pct) (_hp1 : s.monthly_investment_pct ≤ 1)
    (_hy : 1 ≤ s.years) :
    monthlyRate s.annual_investment_return =
        (1 + (s.annual_investment_return : ℝ)) ^ ((1 : ℝ) / 12) - 1 ∧
      ∀ i, i < s.toSalaryExpensesForecasting.forecast_months →
        (s.net_worth_savings_investments).2.1.getD i 0 =
            (if i = 0 then 0
              else (s.net_worth_savings_investments).2.1.getD (i - 1) 0) *
              (1 + monthlyRate s.annual_investment_return) +
              (s.monthly_income_investment).1.getD i 0 ∧
          (s.net_worth_savings_investments).2.2.getD i 0 =
            (s.net_worth_savings_investments).1.getD i 0 +
              (s.net_worth_savings_investments).2.1.getD i 0 := by
  refine ⟨rfl, ?_⟩
  intro i hilt
  constructor
  · rw [portfolio_getD s i hilt]
    cases i with
    | zero =>
      rw [if_pos rfl]
      rfl
    | succ j =>
      rw [if_neg (Nat.succ_ne_zero j), Nat.add_sub_cancel,
        portfolio_getD s j (by omega)]
      rfl
  · rw [net_worth_getD s i hilt, portfolio_getD s i hilt]
    rfl

/-- Claim C8: for every simulator and every month index, the investment
deposit plus the post-investment savings returned by
`monthly_income_investment` sum exactly to that month's net savings
`salaryForecast[i] - expensesForecast[i]`. -/
theorem C8_split_conserves_savings (s : NetWorthSimulation) :
    ∀ i, i < s.toSalaryExpensesForecasting.forecast_months →
      (s.monthly_income_investment).1.getD i 0 +
          (s.monthly_income_investment).2.1.getD i 0 =
        s.toSalaryExpensesForecasting.monthly_salary_forecast.getD i 0 -
          s.toSalaryExpensesForecasting.monthly_expenses_forecast.getD i 0 := by
  intro i h
  have hs : i < s.toSalaryExpensesForecasting.monthly_salary_forecast.length := by
    rw [monthly_salary_forecast_length]
    exact h
  have he : i < s.toSalaryExpensesForecasting.monthly_expenses_forecast.length := by
    rw [monthly_expenses_forecast_length]
    exact h
  have hz : i < (List.zipWith (· - ·)
      s.toSalaryExpensesForecasting.monthly_salary_forecast
      s.toSalaryExpensesForecasting.monthly_expenses_forecast).length := by
    rw [net_savings_length]
    exact h
  rw [monthly_income_investment_def]
  rw [getD_map_mul _ _ _ hz, getD_map_mul _ _ _ hz, getD_zipWith_sub _ _ _ hs he]
  ring

/-- Claim C9: for every simulator and every month index, the cumulative
post-investment savings returned by `monthly_income_investment` (and returned
unchanged as the first component of `net_worth_savings_investments`) equals
`(1 - monthly_investment_pct)` times the corresponding element of the
cumulative savings sequence of `savings_forecast`. -/
theorem C9_cumulative_savings_scaling (s : NetWorthSimulation) :
    (s.net_worth_savings_investments).1 = (s.monthly_income_investment).2.2 ∧
      ∀ i, i < s.toSalaryExpensesForecasting.forecast_months →
        (s.monthly_income_investment).2.2.getD i 0 =
          (1 - (s.monthly_investment_pct : ℝ)) *
            (s.savings_forecast).2.getD i 0 := by
  refine ⟨rfl, ?_⟩
  intro i h
  have hz : i < (List.zipWith (· - ·)
      s.toSalaryExpensesForecasting.monthly_salary_forecast
      s.toSalaryExpensesForecasting.monthly_expenses_forecast).length := by
    rw [net_savings_length]
    exact h
  rw [monthly_income_investment_def, savings_forecast_def]
  rw [cumsum_getD _ _ (by simpa using hz), cumsum_getD _ _ hz,
    ← List.map_take, sum_map_mul_right, mul_comm]

/-- Claim C2: for every simulator with `monthly_investment_pct = 0`, the
portfolio sequence of `net_worth_savings_investments` is all zeros and its
net-worth sequence equals the cumulative savings sequence of
`savings_forecast` exactly. -/
theorem C2_zero_investment_pct (s : NetWorthSimulation)
    (hp : s.monthly_investment_pct = 0) :
    (∀ x ∈ (s.net_worth_savings_investments).2.1, x = 0) ∧
      (s.net_worth_savings_investments).2.2 = (s.savings_forecast).2 := by
  have hdep : ∀ j, (s.monthly_income_investment).1.getD j 0 = 0 := by
    intro j
    rw [monthly_income_investment_def, hp]
    simp only [Rat.cast_zero]
    exact getD_map_mul_zero _ j
  have hcum : (s.monthly_income_investment).2.2 = (s.savings_forecast).2 := by
    rw [monthly_income_investment_def, savings_forecast_def, hp]
    norm_num
  constructor
  · intro x hx
    rw [net_worth_savings_investments_def] at hx
    rcases List.mem_map.mp hx with ⟨i, hi, rfl⟩
    have hin := List.mem_range.mp hi
    rw [((nwFold_apply _ _ _ _).2 i hin).1]
    exact portfolioSpec_eq_zero _ _ hdep i
  · have hlnw : (s.net_worth_savings_investments).2.2.length =
        s.toSalaryExpensesForecasting.forecast_months := by
      rw [net_worth_savings_investments_def]
      simp
    have hlsv : (s.savings_forecast).2.length =
        s.toSalaryExpensesForecasting.forecast_months := by
      rw [savings_forecast_def]
      simp only [cumsum_length]
      exact net_savings_length s
    apply List.ext_getElem (by rw [hlnw, hlsv])
    intro i h1 h2
    have hin : i < s.toSalaryExpensesForecasting.forecast_months := by
      rw [← hlnw]
      exact h1
    rw [← List.getD_eq_getElem _ (0 : ℝ) h1, ← List.getD_eq_getElem _ (0 : ℝ) h2,
      net_worth_getD s i hin, portfolioSpec_eq_zero _ _ hdep i, add_zero, hcum]

/-- Claim C3: for every forecaster with `years ≥ 1`, the sequences returned by
`monthly_salary_forecast` and `monthly_expenses_forecast` each have exactly
`years * 12` elements. -/
theorem C3_forecast_lengths (f : SalaryExpensesForecasting)
    (hy : 1 ≤ f.years) :
    (f.monthly_salary_forecast.length : ℤ) = f.years * 12 ∧
      (f.monthly_expenses_forecast.length : ℤ) = f.years * 12 := by
  have h12 : ((12 * f.years).toNat : ℤ) = 12 * f.years :=
    Int.toNat_of_nonneg (by omega)
  constructor
  · rw [monthly_salary_forecast_length, SalaryExpensesForecasting.forecast_months,
      h12, mul_comm]
  · rw [monthly_expenses_forecast_length, SalaryExpensesForecasting.forecast_months,
      h12, mul_comm]

/-- Claim C4: for every forecaster with `annual_salary_growth = 0`, every
element of `monthly_salary_forecast` equals `monthly_salary_after_tax()`
rounded to two decimal places. -/
theorem C4_zero_growth_constant (f : SalaryExpensesForecasting)
    (h : f.annual_salary_growth = 0) :
    ∀ x ∈ f.monthly_salary_forecast,
      x = round2 (f.toBaseBudget.monthly_salary_after_tax : ℝ) := by
  intro x hx
  have hm : monthlyRate f.annual_salary_growth = 0 := by
    rw [h, monthlyRate]
    norm_num
  simp only [SalaryExpensesForecasting.monthly_salary_forecast, hm, add_zero,
    cumprod_replicate_one] at hx
  rcases List.mem_map.mp hx with ⟨c, hc, rfl⟩
  rw [List.eq_of_mem_replicate hc, one_mul]

/-- Claim C5: `monthly_salary_after_tax()` returns exactly
`salary * (1 - tax_rate) / 12` for every salary and tax rate (it is a pure
function of the stored fields), and a budget constructed with `salary = 60000`
and `tax_rate = 0.3` yields `3500`. -/
theorem C5_monthly_salary_after_tax :
    (∀ b : BaseBudget,
        b.monthly_salary_after_tax = b.salary * (1 - b.tax_rate) / 12) ∧
      (BaseBudget.init 60000 (3 / 10)).2.monthly_salary_after_tax = 3500 := by
  constructor
  · intro b
    rfl
  · norm_num [BaseBudget.monthly_salary_after_tax, BaseBudget.init]

/-- Claim C6, amended: the validated property setters (`rent`, `food_daily`,
`entertainment`, `emergency_expenses`, `annual_salary_growth`,
`annual_inflation`, `annual_investment_return`) reject every negative value
with an error and accept zero or any positive value, with the accepted value
reflected by the getter.  (Construction itself performs no validation; see the
counterexample.) -/
theorem C6_setter_validation (b : BaseBudget) (f : SalaryExpensesForecasting)
    (s : NetWorthSimulation) (v : ℚ) :
    (v < 0 →
      (b.set_rent v).1.isSome ∧ (b.set_food_daily v).1.isSome ∧
        (b.set_entertainment v).1.isSome ∧
        (b.set_emergency_expenses v).1.isSome ∧
        (f.set_annual_salary_growth v).1.isSome ∧
        (f.set_annual_inflation v).1.isSome ∧
        (s.set_annual_investment_return v).1.isSome) ∧
      (0 ≤ v →
        (b.set_rent v).1 = none ∧ (b.set_rent v).2.rent = v ∧
          (b.set_food_daily v).1 = none ∧
          (b.set_food_daily v).2.food_daily = v ∧
          (b.set_entertainment v).1 = none ∧
          (b.set_entertainment v).2.entertainment = v ∧
          (b.set_emergency_expenses v).1 = none ∧
          (b.set_emergency_expenses v).2.emergency_expenses = v ∧
          (f.set_annual_salary_growth v).1 = none ∧
          (f.set_annual_salary_growth v).2.annual_salary_growth = v ∧
          (f.set_annual_inflation v).1 = none ∧
          (f.set_annual_inflation v).2.annual_inflation = v ∧
          (s.set_annual_investment_return v).1 = none ∧
          (s.set_annual_investment_return v).2.annual_investment_return = v) := by
  constructor
  · intro hv
    simp [BaseBudget.set_rent, BaseBudget.set_food_daily,
      BaseBudget.set_entertainment, BaseBudget.set_emergency_expenses,
      SalaryExpensesForecasting.set_annual_salary_growth,
      SalaryExpensesForecasting.set_annual_inflation,
      NetWorthSimulation.set_annual_investment_return, hv]
  · intro hv
    have hv2 : ¬v < 0 := not_lt.mpr hv
    simp [BaseBudget.set_rent, BaseBudget.set_food_daily,
      BaseBudget.set_entertainment, BaseBudget.set_emergency_expenses,
      SalaryExpensesForecasting.set_annual_salary_growth,
      SalaryExpensesForecasting.set_annual_inflation,
      NetWorthSimulation.set_annual_investment_return, hv2]

/-- Claim C6, counterexample to the claim as stated: the constructor performs
no validation, so constructing with a negative horizon (`years = -1`) and a
negative rate (`monthly_investment_pct = -1/2`) raises nothing and stores the
negative values unchanged. -/
theorem C6_counterexample :
    (NetWorthSimulation.init (-1) 60000 (3 / 10) (-1 / 2)).1 = none ∧
      (NetWorthSimulation.init (-1) 60000 (3 / 10) (-1 / 2)).2.years = -1 ∧
      (NetWorthSimulation.init (-1) 60000 (3 / 10) (-1 / 2)).2.monthly_investment_pct
        = -1 / 2 :=
  ⟨rfl, rfl, rfl⟩

/-- Claim C7: the setter failures are supposed to surface the offending field
name, but the `annual_investment_return` setter raises the message
`The inflation rate should be 0 or between 0-1` — byte for byte the message of
the `annual_inflation` setter — so the failure for a negative investment
return names the inflation field instead of the investment-return field. -/
theorem C7_investment_return_message :
    (NetWorthSimulation.set_annual_investment_return
        (NetWorthSimulation.init 1 60000 (3 / 10) (3 / 10)).2 (-1 / 10000)).1 =
      some "The inflation rate should be 0 or between 0-1" ∧
      (NetWorthSimulation.set_annual_investment_return
          (NetWorthSimulation.init 1 60000 (3 / 10) (3 / 10)).2 (-1 / 10000)).1 =
        (SalaryExpensesForecasting.set_annual_inflation
          (SalaryExpensesForecasting.init 1 60000 (3 / 10)).2 (-1 / 10000)).1 := by
  constructor
  · norm_num [NetWorthSimulation.set_annual_investment_return,
      NetWorthSimulation.init]
  · norm_num [NetWorthSimulation.set_annual_investment_return,
      SalaryExpensesForecasting.set_annual_inflation,
      NetWorthSimulation.init, SalaryExpensesForecasting.init]

/-- Claim C10: a failing setter call leaves the whole object unchanged, and a
succeeding setter call changes only the targeted field. -/
theorem C10_setter_state (b : BaseBudget) (f : SalaryExpensesForecasting)
    (s : NetWorthSimulation) (v : ℚ) :
    (v < 0 →
      (b.set_rent v).2 = b ∧ (b.set_food_daily v).2 = b ∧
        (b.set_entertainment v).2 = b ∧ (b.set_emergency_expenses v).2 = b ∧
        (f.set_annual_salary_growth v).2 = f ∧
        (f.set_annual_inflation v).2 = f ∧
        (s.set_annual_investment_return v).2 = s) ∧
      (0 ≤ v →
        (b.set_rent v).2 = { b with rent := v } ∧
          (b.set_food_daily v).2 = { b with food_daily := v } ∧
          (b.set_entertainment v).2 = { b with entertainment := v } ∧
          (b.set_emergency_expenses v).2 = { b with emergency_expenses := v } ∧
          (f.set_annual_salary_growth v).2 =
            { f with annual_salary_growth := v } ∧
          (f.set_annual_inflation v).2 = { f with annual_inflation := v } ∧
          (s.set_annual_investment_return v).2 =
            { s with annual_investment_return := v }) := by
  constructor
  · intro hv
    simp [BaseBudget.set_rent, BaseBudget.set_food_daily,
      BaseBudget.set_entertainment, BaseBudget.set_emergency_expenses,
      SalaryExpensesForecasting.set_annual_salary_growth,
      SalaryExpensesForecasting.set_annual_inflation,
      NetWorthSimulation.set_annual_investment_return, hv]
  · intro hv
    have hv2 : ¬v < 0 := not_lt.mpr hv
    simp [BaseBudget.set_rent, BaseBudget.set_food_daily,
      BaseBudget.set_entertainment, BaseBudget.set_emergency_expenses,
      SalaryExpensesForecasting.set_annual_salary_growth,
      SalaryExpensesForecasting.set_annual_inflation,
      NetWorthSimulation.set_annual_investment_return, hv2]

/-- Witness for C1 at the concrete simulator `s1` and month `0`. -/
theorem C1_net_worth_recurrence_witness :
    (1 : ℤ) ≤ s1.years ∧
      ((s1.net_worth_savings_investments).2.1.getD 0 0 =
          (if 0 = 0 then 0
            else (s1.net_worth_savings_investments).2.1.getD (0 - 1) 0) *
            (1 + monthlyRate s1.annual_investment_return) +
            (s1.monthly_income_investment).1.getD 0 0 ∧
        (s1.net_worth_savings_investments).2.2.getD 0 0 =
          (s1.net_worth_savings_investments).1.getD 0 0 +
            (s1.net_worth_savings_investments).2.1.getD 0 0) :=
  ⟨by decide,
    (C1_net_worth_recurrence s1 (by decide) (by decide) (by decide)
        (by norm_num [s1, NetWorthSimulation.init,
          SalaryExpensesForecasting.init, BaseBudget.init])
        (by norm_num [s1, NetWorthSimulation.init,
          SalaryExpensesForecasting.init, BaseBudget.init])
        (by decide)).2 0 (by decide)⟩

/-- Witness for C2 at the concrete simulator `s0`, whose investment
percentage is zero. -/
theorem C2_zero_investment_pct_witness :
    s0.monthly_investment_pct = 0 ∧
      ((∀ x ∈ (s0.net_worth_savings_investments).2.1, x = 0) ∧
        (s0.net_worth_savings_investments).2.2 = (s0.savings_forecast).2) :=
  ⟨rfl, C2_zero_investment_pct s0 rfl⟩

/-- Witness for C3 at the concrete one-year forecaster `f0`. -/
theorem C3_forecast_lengths_witness :
    (1 : ℤ) ≤ f0.years ∧
      ((f0.monthly_salary_forecast.length : ℤ) = f0.years * 12 ∧
        (f0.monthly_expenses_forecast.length : ℤ) = f0.years * 12) :=
  ⟨by decide, C3_forecast_lengths f0 (by decide)⟩

/-- Witness for C4 at the concrete forecaster `f0`, whose salary growth is
zero. -/
theorem C4_zero_growth_constant_witness :
    f0.annual_salary_growth = 0 ∧
      ∀ x ∈ f0.monthly_salary_forecast,
        x = round2 (f0.toBaseBudget.monthly_salary_after_tax : ℝ) :=
  ⟨rfl, C4_zero_growth_constant f0 rfl⟩

/-- Witness for C6 at the boundary value `-0.0001` and at the accepted
values `5` and `0`. -/
theorem C6_setter_validation_witness :
    (b0.set_rent (-1 / 10000)).1.isSome ∧
      (s0.set_annual_investment_return (-1 / 10000)).1.isSome ∧
      (b0.set_rent 5).1 = none ∧ (b0.set_rent 5).2.rent = 5 ∧
      (f0.set_annual_inflation 0).1 = none ∧
      (f0.set_annual_inflation 0).2.annual_inflation = 0 := by
  have hneg := (C6_setter_validation b0 f0 s0 (-1 / 10000)).1 (by norm_num)
  have hpos := (C6_setter_validation b0 f0 s0 5).2 (by decide)
  have hzero := (C6_setter_validation b0 f0 s0 0).2 (by decide)
  exact ⟨hneg.1, hneg.2.2.2.2.2.2, hpos.1, hpos.2.1,
    hzero.2.2.2.2.2.2.2.2.2.2.1, hzero.2.2.2.2.2.2.2.2.2.2.2.1⟩

/-- Witness for C8 at the concrete simulator `s1` and month `0`. -/
theorem C8_split_conserves_savings_witness :
    0 < s1.toSalaryExpensesForecasting.forecast_months ∧
      (s1.monthly_income_investment).1.getD 0 0 +
          (s1.monthly_income_investment).2.1.getD 0 0 =
        s1.toSalaryExpensesForecasting.monthly_salary_forecast.getD 0 0 -
          s1.toSalaryExpensesForecasting.monthly_expenses_forecast.getD 0 0 :=
  ⟨by decide, C8_split_conserves_savings s1 0 (by decide)⟩

/-- Witness for C9 at the concrete simulator `s1` and month `0`. -/
theorem C9_cumulative_savings_scaling_witness :
    0 < s1.toSalaryExpensesForecasting.forecast_months ∧
      (s1.monthly_income_investment).2.2.getD 0 0 =
        (1 - (s1.monthly_investment_pct : ℝ)) *
          (s1.savings_forecast).2.getD 0 0 :=
  ⟨by decide, (C9_cumulative_savings_scaling s1).2 0 (by decide)⟩

/-- Witness for C10 at the boundary value `-0.0001` and the accepted
value `5`. -/
theorem C10_setter_state_witness :
    (b0.set_rent (-1 / 10000)).2 = b0 ∧
      (s0.set_annual_investment_return (-1 / 10000)).2 = s0 ∧
      (b0.set_rent 5).2 = { b0 with rent := 5 } := by
  have hneg := (C10_setter_state b0 f0 s0 (-1 / 10000)).1 (by norm_num)
  have hpos := (C10_setter_state b0 f0 s0 5).2 (by decide)
  exact ⟨hneg.1, hneg.2.2.2.2.2.2, hpos.1⟩
